import Mathlib

/-!
# DocuFlow — formal model of the slide pipeline, layout hydrator and canvas engine

A shallow embedding of the core of the DocuFlow application:

* the slide data model (`src/types.ts`),
* the layout hydrator `hydrateLayoutToElements` (`src/unnamed/part_001`),
* the canvas interaction engine's pointer-delta conversion and resize branch
  (`src/unnamed/part_003`, `handleMouseMove`),
* the Image Generator service wrapper `generateSlideImage`
  (`src/services/geminiService.ts`),
* the generation pipeline `handleGenerate` and the ad-hoc single-slide
  regeneration `handleRegenerateImage` (`src/App.tsx`).

JavaScript numbers are modelled as exact rationals (`ℚ`); `Math.floor` over
non-negative values is `Nat.floor`.  JavaScript string truthiness
(`if (s)`, `s || d`) is modelled explicitly.  External collaborators
(Structure Generator, Image Generator) are modelled as oracles supplied to
the pipeline; asynchronous suspension points are modelled by letting an
arbitrary user edit of the store fire at each `await` of the image loop.
-/

namespace Docuflow

/-- `src/types.ts` lines 1-9: the fixed layout enumeration. -/
inductive SlideLayout
  | TITLE | CONTENT_LEFT | CONTENT_RIGHT | BULLETS | QUOTE | DATA | PROCESS
  deriving DecidableEq, Repr

/-- `src/types.ts` line 11: `ElementType = 'text' | 'image' | 'shape'`. -/
inductive ElementType
  | text | image | shape
  deriving DecidableEq, Repr

/-- A JS `number | 'auto'` dimension (`SlideElement.height` is typed `number`
in `src/types.ts` but the hydrator stores the string `'auto'` in it,
`src/unnamed/part_001` line 44; `src/unnamed/part_003` line 100 tests
`typeof el.height === 'number'`). -/
inductive Dim
  | num (v : ℚ)
  | auto
  deriving DecidableEq, Repr

/-- `src/types.ts` lines 22-31: the optional element style bag.  Only the
fields the hydrator writes are carried. -/
structure ElementStyle where
  fontSize : Option ℚ := none
  fontWeight : Option String := none
  textAlign : Option String := none
  zIndex : Option Nat := none
  backgroundColor : Option String := none
  deriving DecidableEq, Repr

/-- `src/types.ts` lines 13-32: one positioned object on a slide's canvas. -/
structure SlideElement where
  id : String
  type : ElementType
  content : String
  x : ℚ
  y : ℚ
  width : ℚ
  height : Dim
  style : Option ElementStyle := none
  deriving DecidableEq, Repr

/-- `src/types.ts` lines 34-44: one deck page.  Optional string fields are
`Option String`; a missing `elements` array is the empty list. -/
structure Slide where
  id : String
  layout : SlideLayout
  title : String
  subtitle : Option String := none
  content : List String := []
  visualPrompt : Option String := none
  imageUrl : Option String := none
  speakerNotes : String := ""
  elements : List SlideElement := []
  deriving DecidableEq, Repr

/-- `src/types.ts` lines 50-55 (the `App.tsx` variant has no `visualStyle`
field; `handleGenerate` constructs `{theme, primaryColor, fontScale}`). -/
structure PresentationStyle where
  theme : String
  primaryColor : String
  fontScale : ℚ
  deriving DecidableEq, Repr

/-- `src/types.ts` lines 57-61: the root aggregate owned by the Store. -/
structure Presentation where
  title : String
  slides : List Slide
  style : PresentationStyle
  deriving DecidableEq, Repr

/-- `src/types.ts` line 63: the pipeline state-machine value. -/
inductive GenerationStage
  | IDLE | ANALYZING_DOC | GENERATING_STRUCTURE | GENERATING_IMAGES
  | COMPLETE | ERROR
  deriving DecidableEq, Repr

/-- `src/types.ts` lines 65-71: the transient status value exposed to the UI. -/
structure GenerationStatus where
  stage : GenerationStage
  message : String
  progress : Nat
  currentSlideIndex : Option Nat := none
  totalSlides : Option Nat := none
  deriving DecidableEq, Repr

/-- JS truthiness of an optional string: `if (s)` is true exactly when the
field is present and non-empty (`undefined` and `''` are falsy). -/
def strTruthy (s : Option String) : Bool :=
  match s with
  | none => false
  | some v => v ≠ ""

/-! ## Layout hydrator (`src/unnamed/part_001`)

`generateId` (line 30) is `Math.random().toString(36).substr(2, 9)`: a fresh
draw from an ambient pseudo-random stream at every call.  The stream is made
explicit: the hydrator receives `gen : Nat → String` and the element pushed
in position `k` receives id `gen k` (ids are drawn exactly when an element is
pushed; `addText` returns before drawing an id when its text is falsy).
Distinct invocations of the hydrator consume disjoint portions of the global
random stream, so they see different `gen` functions. -/

/-- A slide element before its id is drawn: all fields of `SlideElement`
except `id`. -/
structure ProtoElement where
  type : ElementType
  content : String
  x : ℚ
  y : ℚ
  width : ℚ
  height : Dim
  style : Option ElementStyle := none
  deriving DecidableEq, Repr

/-- Forget the id of a `SlideElement` (used to compare hydrator outputs
modulo id generation). -/
def SlideElement.erase (e : SlideElement) : ProtoElement :=
  { type := e.type, content := e.content, x := e.x, y := e.y
    width := e.width, height := e.height, style := e.style }

/-- `addText` helper (`src/unnamed/part_001` lines 38-47): pushes one text
element with z-order 10, or nothing when the text is falsy (empty or
`undefined`, both passed here as `""`). -/
def addText (text : String) (x y w size : ℚ) (weight align : String) :
    List ProtoElement :=
  if text = "" then []
  else [{ type := .text, content := text, x := x, y := y, width := w
          height := .auto
          style := some { fontSize := some size, fontWeight := some weight
                          textAlign := some align, zIndex := some 10 } }]

/-- `addImage` helper (`src/unnamed/part_001` lines 50-60): always pushes one
image element with z-order 1; its content is the data-URL of the slide's
image when the `imageUrl` is truthy, else the empty string. -/
def addImage (imageUrl : Option String) (x y w h : ℚ) : List ProtoElement :=
  [{ type := .image
     content := if strTruthy imageUrl
                then "data:image/png;base64," ++ imageUrl.getD ""
                else ""
     x := x, y := y, width := w, height := .num h
     style := some { zIndex := some 1 } }]

/-- The layout switch of `hydrateLayoutToElements`
(`src/unnamed/part_001` lines 62-110), producing the pushed elements in
order, ids not yet drawn.  `slide.content[0]` on an empty array is JS
`undefined`, which `addText` treats like the empty string. -/
def hydrateProto (slide : Slide) : List ProtoElement :=
  match slide.layout with
  | .TITLE =>
      addText slide.title 10 30 80 4 "bold" "center"
      ++ addText (slide.subtitle.getD "") 20 50 60 (3/2) "normal" "center"
      ++ (if strTruthy slide.imageUrl then addImage slide.imageUrl 0 0 100 100 else [])
  | .CONTENT_LEFT =>
      addText slide.title 5 10 40 (5/2) "bold" "left"
      ++ (slide.content.mapIdx fun i point =>
            addText ("• " ++ point) 5 (30 + i * 10) 40 (6/5) "normal" "left").flatten
      ++ addImage slide.imageUrl 50 10 45 80
  | .CONTENT_RIGHT =>
      addImage slide.imageUrl 5 10 45 80
      ++ addText slide.title 55 10 40 (5/2) "bold" "left"
      ++ (slide.content.mapIdx fun i point =>
            addText ("• " ++ point) 55 (30 + i * 10) 40 (6/5) "normal" "left").flatten
  | .BULLETS =>
      addText slide.title 10 10 80 3 "bold" "left"
      ++ (slide.content.mapIdx fun i point =>
            addText point (if i % 2 = 0 then 10 else 55) (30 + (i / 2 : Nat) * 15)
              40 (3/2) "normal" "left").flatten
  | .QUOTE =>
      addText "\"" 10 20 10 8 "bold" "left"
      ++ addText (slide.content.getD 0 "") 15 30 70 (5/2) "normal" "center"
      ++ (if strTruthy slide.subtitle
          then addText ("— " ++ slide.subtitle.getD "") 60 60 30 (6/5) "bold" "right"
          else [])
  | .DATA | .PROCESS =>
      addText slide.title 5 5 90 (5/2) "bold" "left"
      ++ (if strTruthy slide.imageUrl then addImage slide.imageUrl 5 20 90 40 else [])
      ++ (slide.content.mapIdx fun i point =>
            addText point 5 (65 + i * 8) 90 (6/5) "normal" "left").flatten

/-- `hydrateLayoutToElements` (`src/unnamed/part_001` lines 33-113): the
layout switch, with the `k`-th pushed element receiving the `k`-th id drawn
from the random-id stream `gen`. -/
def hydrateLayoutToElements (gen : Nat → String) (slide : Slide) :
    List SlideElement :=
  (hydrateProto slide).mapIdx fun k p =>
    { id := gen k, type := p.type, content := p.content, x := p.x, y := p.y
      width := p.width, height := p.height, style := p.style }

/-! ## Coordinate model and resize (`src/unnamed/part_003`) -/

/-- The pointer-delta conversion of `handleMouseMove`
(`src/unnamed/part_003` lines 81-84):
`deltaX = (clientDX) / scale; deltaXPercent = (deltaX / (rectW / scale)) * 100`
where `rectW` is `containerRect.width`, the container's on-screen
(`getBoundingClientRect`, transform-inclusive) width. -/
def deltaXPercent (clientDX rectW scale : ℚ) : ℚ :=
  ((clientDX / scale) / (rectW / scale)) * 100

/-- DOM geometry of the scaled container (`src/unnamed/part_003`
lines 225-232): the container has logical (layout) width `L` and carries
`transform: scale(s)`, so its `getBoundingClientRect().width` — the value
`handleMouseMove` reads — is the rendered width `L * s`. -/
def renderedWidth (L s : ℚ) : ℚ := L * s

/-- One resize gesture on an element: the mouse-down capture
`elementStart = {w: el.width, h: el.height}` (`src/unnamed/part_003`
lines 60-66) composed with the `isResizing` branch of `handleMouseMove`
(lines 96-101):
`width = Math.max(5, elementStart.w + deltaXPercent)` and
`height = typeof el.height === 'number' ? Math.max(5, elementStart.h + deltaYPercent) : el.height`.
Every later mouse-move of the same gesture recomputes from the same capture
with the then-current cumulative delta, so each intermediate state is this
function at some delta. -/
def resizeGesture (el : SlideElement) (dXP dYP : ℚ) : SlideElement :=
  { el with
    width := max 5 (el.width + dXP)
    height := match el.height with
              | .num h0 => .num (max 5 (h0 + dYP))
              | .auto => .auto }

/-! ## Image Generator service (`src/services/geminiService.ts`) -/

/-- What happens to one `generateSlideImage` invocation, as seen at its
boundary:
* `thrown m` — an exception before the guarded request (only `getAiClient`,
  line 123, which throws when `API_KEY` is missing; it sits outside the
  `try` of lines 166-183), so the whole call rejects with `m`;
* `reqError` — the request inside the `try` rejects;
* `response ps` — the request resolves; `ps` is
  `response.candidates?.[0]?.content?.parts` (`none` when that chain is
  missing), each part's `inlineData.data` being `some` data or `none`. -/
inductive ImgOutcome
  | thrown (m : String)
  | reqError
  | response (ps : Option (List (Option String)))
  deriving DecidableEq, Repr

/-- `for (const part of parts) if (part.inlineData) return part.inlineData.data`
(`src/services/geminiService.ts` lines 176-178), else `""` (line 179). -/
def firstInlineData : List (Option String) → String
  | [] => ""
  | some d :: _ => d
  | none :: rest => firstInlineData rest

/-- `generateSlideImage` (`src/services/geminiService.ts` lines 122-184) at
its boundary: an uncaught client-construction error rejects the call; a
request error is caught and yields `""` (line 182); a response with no parts
yields `""` (line 174); otherwise the first part carrying `inlineData` is
returned, else `""`. -/
def generateSlideImage (o : ImgOutcome) : Except String String :=
  match o with
  | .thrown m => .error m
  | .reqError => .ok ""
  | .response none => .ok ""
  | .response (some ps) => .ok (firstInlineData ps)

/-! ## Generation pipeline (`src/App.tsx`, `handleGenerate`) -/

/-- The parsed Structure Generator response
(`generatePresentationStructure` resolves with
`{slides, title, theme}`, `src/services/geminiService.ts` line 15). -/
structure StructResponse where
  title : String
  theme : String
  slides : List Slide
  deriving DecidableEq, Repr

/-- The pipeline's environment: the outcome of the one Structure Generator
call, the outcome of the Image Generator call for each slide index, and the
user edits of the Store that fire while the loop is suspended awaiting slide
`i`'s image (the identity function when the user does nothing).  The latter
models §5 of the design: pointer/typing events interleave with the loop only
at its `await` suspension points. -/
structure PipelineEnv where
  structureResult : Except String StructResponse
  imgOutcome : Nat → ImgOutcome
  editAt : Nat → Option Presentation → Option Presentation

/-- The `setStatus` issued at the top of iteration `i` of the image loop
(`src/App.tsx` lines 92-97): a functional update keeping the stage
(`GENERATING_IMAGES`) and `totalSlides` set at line 85, with
`progress: 40 + Math.floor(((i + 1) / total) * 60)` and
`currentSlideIndex: i + 1`. -/
def imageStatus (i total : Nat) : GenerationStatus :=
  { stage := .GENERATING_IMAGES
    message := "Visualizing slide " ++ toString (i + 1) ++ " of " ++
               toString total ++ "..."
    progress := 40 + ⌊((i + 1 : ℚ) / (total : ℚ)) * 60⌋₊
    currentSlideIndex := some (i + 1)
    totalSlides := some total }

/-- The status set at `src/App.tsx` line 85, just after the initial
presentation is published. -/
def imagesStartStatus (total : Nat) : GenerationStatus :=
  { stage := .GENERATING_IMAGES, message := "Visualizing Slide 1..."
    progress := 40, currentSlideIndex := some 0, totalSlides := some total }

/-- The status set at `src/App.tsx` line 59. -/
def analyzingStatus : GenerationStatus :=
  { stage := .ANALYZING_DOC
    message := "Analyzing document structure & intent...", progress := 10 }

/-- The status set at `src/App.tsx` line 69. -/
def planningStatus : GenerationStatus :=
  { stage := .GENERATING_STRUCTURE
    message := "Planning narrative flow & visuals...", progress := 30 }

/-- The status set in the outer catch (`src/App.tsx` line 113). -/
def errorStatus (m : String) : GenerationStatus :=
  { stage := .ERROR
    message := "Error: " ++ (if m = "" then "Unknown error" else m)
    progress := 0 }

/-- The status set at `src/App.tsx` line 109 after the loop. -/
def completeStatus : GenerationStatus :=
  { stage := .COMPLETE, message := "Visuals Ready!", progress := 100 }

/-- The image loop of `handleGenerate` (`src/App.tsx` lines 87-107),
iterating `n` further indices starting at `i` over the local snapshot array
`updatedSlides` (captured as `[...initialPresentation.slides]` at line 87).
Per index: if the slide's `visualPrompt` is truthy, report status, suspend
on `await generateSlideImage` (during which `env.editAt i` transforms the
Store), and on a resolved call write
`updatedSlides[i] = {...slide, imageUrl: result}` and republish
`setPresentation(prev => prev ? {...prev, slides: [...updatedSlides]} : null)`
(lines 101-102); a rejected call is caught (line 103) and the loop
continues.  Returns the final snapshot array, the final Store value, and the
list of statuses reported inside the loop. -/
def imageLoop (env : PipelineEnv) (total : Nat) :
    Nat → Nat → List Slide → Option Presentation →
    List Slide × Option Presentation × List GenerationStatus
  | 0, _, updatedSlides, store => (updatedSlides, store, [])
  | n + 1, i, updatedSlides, store =>
      match updatedSlides[i]? with
      | none => (updatedSlides, store, [])
      | some slide =>
          if strTruthy slide.visualPrompt then
            let store1 := env.editAt i store
            match generateSlideImage (env.imgOutcome i) with
            | .ok img =>
                let slides1 := updatedSlides.set i { slide with imageUrl := some img }
                let store2 := store1.map fun p => { p with slides := slides1 }
                let r := imageLoop env total n (i + 1) slides1 store2
                (r.1, r.2.1, imageStatus i total :: r.2.2)
            | .error _ =>
                let r := imageLoop env total n (i + 1) updatedSlides store1
                (r.1, r.2.1, imageStatus i total :: r.2.2)
          else
            imageLoop env total n (i + 1) updatedSlides store

/-- The result of one `handleGenerate` run: the final Store and status, and
the trace of every status reported along the way. -/
structure PipelineResult where
  presentation : Option Presentation
  status : GenerationStatus
  trace : List GenerationStatus
  deriving DecidableEq, Repr

/-- The initial Presentation built from the Structure Generator response
(`src/App.tsx` lines 74-82): `theme: structure.theme || 'modern'`,
`primaryColor: ''`, `fontScale: 1`. -/
def initialPresentation (sr : StructResponse) : Presentation :=
  { title := sr.title, slides := sr.slides
    style := { theme := if sr.theme = "" then "modern" else sr.theme
               primaryColor := "", fontScale := 1 } }

/-- `handleGenerate` (`src/App.tsx` lines 52-115).  `fileSupplied` states
whether a document was attached; an empty `notes` together with no file is
rejected up front (lines 53-56) with no state change.  On a failed Structure
Generator call the outer catch (lines 111-114) sets `ERROR` and the
Presentation is never touched.  On success the initial Presentation
(`theme: structure.theme || 'modern'`, `primaryColor: ''`, `fontScale: 1`,
lines 74-84) is published, the image loop runs over the snapshot array, and
the status ends `COMPLETE` (line 109) whatever the individual image outcomes
were. -/
def handleGenerate (env : PipelineEnv) (presentation0 : Option Presentation)
    (status0 : GenerationStatus) (fileSupplied : Bool) (notes : String) :
    PipelineResult :=
  if fileSupplied = false ∧ notes = "" then
    { presentation := presentation0, status := status0, trace := [] }
  else
    match env.structureResult with
    | .error m =>
        { presentation := presentation0, status := errorStatus m
          trace := [analyzingStatus, planningStatus, errorStatus m] }
    | .ok sr =>
        let total := sr.slides.length
        let r := imageLoop env total total 0 sr.slides (some (initialPresentation sr))
        { presentation := r.2.1, status := completeStatus
          trace := [analyzingStatus, planningStatus, imagesStartStatus total] ++
                   r.2.2 ++ [completeStatus] }

/-! ## Ad-hoc single-slide regeneration (`src/App.tsx`, `handleRegenerateImage`) -/

/-- `slides[index] = {...slides[index], imageUrl: u}` on a copied array. -/
def setImageUrl (slides : List Slide) (index : Nat) (u : Option String) :
    List Slide :=
  match slides[index]? with
  | some s => slides.set index { s with imageUrl := u }
  | none => slides

/-- `handleRegenerateImage` (`src/App.tsx` lines 124-146).  Returns the
final Store value and whether an Image Generator request was issued.  A
`null` Presentation (line 125) or an id matching no slide (lines 128-129)
returns before any request.  Otherwise the slide's `imageUrl` is first set
to the pending sentinel `''` (lines 134-136); on a resolved request the
captured `presentation.slides` (not the sentinel-bearing array) gets the new
image at `index` (lines 139-142); a rejected request is caught (line 143)
leaving the sentinel in place. -/
def handleRegenerateImage (out : ImgOutcome) (presentation : Option Presentation)
    (slideId : String) : Option Presentation × Bool :=
  match presentation with
  | none => (none, false)
  | some p =>
      match p.slides.findIdx? (fun s => s.id = slideId) with
      | none => (some p, false)
      | some index =>
          let pending : Presentation :=
            { p with slides := setImageUrl p.slides index (some "") }
          match generateSlideImage out with
          | .ok img =>
              (some { p with slides := setImageUrl p.slides index (some img) }, true)
          | .error _ => (some pending, true)

/-! ## Concrete instances used by witnesses and counterexamples -/

/-- `INITIAL_STATUS` (`src/App.tsx` lines 26-30). -/
def idleStatus : GenerationStatus :=
  { stage := .IDLE, message := "Ready to create", progress := 0 }

/-- A TITLE slide with a visual prompt. -/
def sA : Slide := { id := "s0", layout := .TITLE, title := "A", visualPrompt := some "p0" }

/-- A BULLETS slide with a visual prompt. -/
def sB : Slide := { id := "s1", layout := .BULLETS, title := "S1", visualPrompt := some "p1" }

/-- A DATA slide with no visual prompt (skipped by the loop). -/
def sNoPrompt : Slide := { id := "s2", layout := .DATA, title := "S2" }

/-- A two-slide deck, both slides prompted. -/
def srTwo : StructResponse := { title := "Deck", theme := "tech", slides := [sA, sB] }

/-- Both image requests resolve; while the loop awaits slide 1 the user
renames slide 0 to "B". -/
def envEdit : PipelineEnv :=
  { structureResult := .ok srTwo
    imgOutcome := fun i => .response (some [some ("img" ++ toString i)])
    editAt := fun i pres =>
      if i = 1 then
        pres.map fun p =>
          { p with slides := p.slides.map fun s =>
              if s.id = "s0" then { s with title := "B" } else s }
      else pres }

/-- Same interleaved edit, but slide 1's image call throws, so no republish
follows the edit. -/
def envEditNoWrite : PipelineEnv :=
  { envEdit with imgOutcome := fun i =>
      if i = 1 then .thrown "x" else .response (some [some ("img" ++ toString i)]) }

/-- A one-slide deck whose single image request fails inside the service's
`try` block. -/
def srOne : StructResponse := { title := "Deck", theme := "modern", slides := [sA] }

/-- The image request for the only slide rejects (and is caught by
`generateSlideImage`). -/
def envImgFail : PipelineEnv :=
  { structureResult := .ok srOne
    imgOutcome := fun _ => .reqError
    editAt := fun _ p => p }

/-- A three-slide deck: slides 0 and 2 prompted, slide 1 not. -/
def srMixed : StructResponse := { title := "Deck", theme := "", slides := [sA, sNoPrompt, sB] }

/-- All issued image requests resolve; no user edits. -/
def envMixed : PipelineEnv :=
  { structureResult := .ok srMixed
    imgOutcome := fun i => .response (some [some ("img" ++ toString i)])
    editAt := fun _ p => p }

/-- The Structure Generator call fails. -/
def envStructFail : PipelineEnv :=
  { structureResult := .error "boom"
    imgOutcome := fun _ => .reqError
    editAt := fun _ p => p }

/-- Five prompted slides (the worked example of the design: request 2 of 5
fails, the others resolve). -/
def srFive : StructResponse :=
  { title := "Deck", theme := "modern"
    slides := [{ id := "q0", layout := .TITLE, title := "T0", visualPrompt := some "v0" },
               { id := "q1", layout := .BULLETS, title := "T1", visualPrompt := some "v1" },
               { id := "q2", layout := .DATA, title := "T2", visualPrompt := some "v2" },
               { id := "q3", layout := .QUOTE, title := "T3", visualPrompt := some "v3" },
               { id := "q4", layout := .PROCESS, title := "T4", visualPrompt := some "v4" }] }

/-- Request 2 of 5 (index 1) fails by throwing; the rest resolve. -/
def envFive : PipelineEnv :=
  { structureResult := .ok srFive
    imgOutcome := fun i =>
      if i = 1 then .thrown "fail" else .response (some [some ("img" ++ toString i)])
    editAt := fun _ p => p }

/-- An id stream for a first hydrator invocation. -/
def gen0 : Nat → String := fun n => toString n

/-- The same stream advanced past the one id the first invocation of the
hydrator on `slideTitleA` consumes. -/
def gen1 : Nat → String := fun n => toString (1 + n)

/-- A minimal TITLE slide (hydrates to a single text element). -/
def slideTitleA : Slide := { id := "t", layout := .TITLE, title := "A" }

/-- A QUOTE slide with empty content and an attribution subtitle. -/
def quoteSlide : Slide :=
  { id := "q", layout := .QUOTE, title := "t", subtitle := some "Jane Doe"
    content := [] }

/-- An element with intrinsic (auto) height. -/
def elAuto : SlideElement :=
  { id := "e1", type := .text, content := "x", x := 1, y := 2, width := 30
    height := .auto }

/-- An element with numeric height 50. -/
def elNum : SlideElement :=
  { id := "e2", type := .image, content := "", x := 1, y := 2, width := 30
    height := .num 50 }

/-- A one-slide Presentation for the regeneration no-op check. -/
def presOne : Presentation :=
  { title := "T", slides := [sA]
    style := { theme := "modern", primaryColor := "", fontScale := 1 } }

/-! ## Shared lemmas about the image loop -/

/-- Whether the slide at index `j` has a truthy `visualPrompt` (the loop's
send/skip test, `src/App.tsx` line 91). -/
def promptedAt (slides : List Slide) (j : Nat) : Bool :=
  match slides[j]? with
  | some s => strTruthy s.visualPrompt
  | none => false

/-- Characterization of the loop's final snapshot array: the slide at index
`j` is rewritten to carry the resolved image exactly when `j` lies in the
processed window, its prompt is truthy and its `generateSlideImage` call
resolved; otherwise it is untouched. -/
theorem imageLoop_get? (env : PipelineEnv) (total : Nat) :
    ∀ (n i : Nat) (slides : List Slide) (store : Option Presentation)
      (j : Nat) (s : Slide), slides[j]? = some s →
      (imageLoop env total n i slides store).1[j]? =
        (if i ≤ j ∧ j < i + n ∧ strTruthy s.visualPrompt = true then
          match generateSlideImage (env.imgOutcome j) with
          | .ok img => some { s with imageUrl := some img }
          | .error _ => some s
        else some s) := by
  intro n
  induction n with
  | zero =>
      intro i slides store j s hj
      rw [if_neg (by rintro ⟨h1, h2, -⟩; omega)]
      simpa [imageLoop] using hj
  | succ n ih =>
      intro i slides store j s hj
      have hjlt : j < slides.length := by
        by_contra h
        rw [List.getElem?_eq_none (Nat.le_of_not_lt h)] at hj
        exact Option.noConfusion hj
      cases hi : slides[i]? with
      | none =>
          have hlen : slides.length ≤ i := List.getElem?_eq_none_iff.mp hi
          rw [if_neg (by rintro ⟨h1, -, -⟩; omega)]
          simpa [imageLoop, hi] using hj
      | some slide =>
          by_cases hp : strTruthy slide.visualPrompt = true
          · cases hgen : generateSlideImage (env.imgOutcome i) with
            | ok img =>
                simp only [imageLoop, hi, hp, if_true, hgen]
                by_cases hji : j = i
                · subst hji
                  have hs : slide = s := by rw [hi] at hj; exact Option.some.inj hj
                  subst hs
                  have h1 : (slides.set j { slide with imageUrl := some img })[j]? =
                      some { slide with imageUrl := some img } :=
                    List.getElem?_set_self hjlt
                  have h2 := ih (j + 1)
                    (slides.set j { slide with imageUrl := some img })
                    ((env.editAt j store).map fun p =>
                      { p with slides := slides.set j { slide with imageUrl := some img } })
                    j _ h1
                  rw [if_neg (by rintro ⟨hc, -, -⟩; omega)] at h2
                  rw [h2, if_pos ⟨Nat.le_refl j, by omega, hp⟩, hgen]
                · have h1 : (slides.set i { slide with imageUrl := some img })[j]? =
                      some s := by
                    rw [List.getElem?_set_ne (fun h => hji h.symm)]; exact hj
                  have h2 := ih (i + 1)
                    (slides.set i { slide with imageUrl := some img })
                    ((env.editAt i store).map fun p =>
                      { p with slides := slides.set i { slide with imageUrl := some img } })
                    j _ h1
                  have hiff : (i + 1 ≤ j ∧ j < i + 1 + n ∧
                        strTruthy s.visualPrompt = true) ↔
                      (i ≤ j ∧ j < i + (n + 1) ∧ strTruthy s.visualPrompt = true) := by
                    constructor
                    · rintro ⟨a, b, c⟩; exact ⟨by omega, by omega, c⟩
                    · rintro ⟨a, b, c⟩; exact ⟨by omega, by omega, c⟩
                  rw [h2]
                  exact if_congr hiff rfl rfl
            | error e =>
                simp only [imageLoop, hi, hp, if_true, hgen]
                by_cases hji : j = i
                · subst hji
                  have hs : slide = s := by rw [hi] at hj; exact Option.some.inj hj
                  subst hs
                  have h2 := ih (j + 1) slides (env.editAt j store) j _ hj
                  rw [if_neg (by rintro ⟨hc, -, -⟩; omega)] at h2
                  rw [h2, if_pos ⟨Nat.le_refl j, by omega, hp⟩, hgen]
                · have h2 := ih (i + 1) slides (env.editAt i store) j _ hj
                  have hiff : (i + 1 ≤ j ∧ j < i + 1 + n ∧
                        strTruthy s.visualPrompt = true) ↔
                      (i ≤ j ∧ j < i + (n + 1) ∧ strTruthy s.visualPrompt = true) := by
                    constructor
                    · rintro ⟨a, b, c⟩; exact ⟨by omega, by omega, c⟩
                    · rintro ⟨a, b, c⟩; exact ⟨by omega, by omega, c⟩
                  rw [h2]
                  exact if_congr hiff rfl rfl
          · have hp' : strTruthy slide.visualPrompt = false := by simpa using hp
            simp only [imageLoop, hi, hp', Bool.false_eq_true, if_false]
            by_cases hji : j = i
            · subst hji
              have hs : slide = s := by rw [hi] at hj; exact Option.some.inj hj
              subst hs
              have h2 := ih (j + 1) slides store j _ hj
              rw [if_neg (by rintro ⟨hc, -, -⟩; omega)] at h2
              rw [h2, if_neg (by rintro ⟨-, -, c⟩; exact hp c)]
            · have h2 := ih (i + 1) slides store j _ hj
              have hiff : (i + 1 ≤ j ∧ j < i + 1 + n ∧
                    strTruthy s.visualPrompt = true) ↔
                  (i ≤ j ∧ j < i + (n + 1) ∧ strTruthy s.visualPrompt = true) := by
                constructor
                · rintro ⟨a, b, c⟩; exact ⟨by omega, by omega, c⟩
                · rintro ⟨a, b, c⟩; exact ⟨by omega, by omega, c⟩
              rw [h2]
              exact if_congr hiff rfl rfl

/-- When the user makes no edit during generation, the Store tracks the
loop's snapshot array: its title and style stay those of the initial
Presentation and its slide list ends up equal to the loop's final snapshot
array. -/
theorem imageLoop_store (env : PipelineEnv) (total : Nat)
    (hedit : ∀ i s, env.editAt i s = s) :
    ∀ (n i : Nat) (t : String) (sty : PresentationStyle) (slides : List Slide),
      (imageLoop env total n i slides
        (some { title := t, slides := slides, style := sty })).2.1 =
      some { title := t
             slides := (imageLoop env total n i slides
               (some { title := t, slides := slides, style := sty })).1
             style := sty } := by
  intro n
  induction n with
  | zero => intro i t sty slides; simp [imageLoop]
  | succ n ih =>
      intro i t sty slides
      cases hi : slides[i]? with
      | none => simp [imageLoop, hi]
      | some slide =>
          by_cases hp : strTruthy slide.visualPrompt = true
          · cases hgen : generateSlideImage (env.imgOutcome i) with
            | ok img =>
                simp only [imageLoop, hi, hp, if_true, hgen, hedit, Option.map_some]
                exact ih (i + 1) t sty (slides.set i { slide with imageUrl := some img })
            | error e =>
                simp only [imageLoop, hi, hp, if_true, hgen, hedit]
                exact ih (i + 1) t sty slides
          · have hp1 : strTruthy slide.visualPrompt = false := by simpa using hp
            simp only [imageLoop, hi, hp1, Bool.false_eq_true, if_false]
            exact ih (i + 1) t sty slides

/-- The loop's status trace: one status per prompted slide of the processed
window, in index order. -/
theorem imageLoop_trace (env : PipelineEnv) (total : Nat) :
    ∀ (n i : Nat) (slides : List Slide) (store : Option Presentation),
      (imageLoop env total n i slides store).2.2 =
        ((List.range' i n).filter (promptedAt slides)).map
          (fun j => imageStatus j total) := by
  intro n
  induction n with
  | zero => intro i slides store; simp [imageLoop]
  | succ n ih =>
      intro i slides store
      rw [List.range'_succ]
      cases hi : slides[i]? with
      | none =>
          have hlen : slides.length ≤ i := List.getElem?_eq_none_iff.mp hi
          have hnil : ((i :: List.range' (i + 1) n).filter
              (promptedAt slides)) = [] := by
            rw [List.filter_eq_nil_iff]
            intro a ha
            have hai : i ≤ a := by
              rcases List.mem_cons.mp ha with h | h
              · omega
              · rcases List.mem_range'.mp h with ⟨k, -, rfl⟩; omega
            have : slides[a]? = none :=
              List.getElem?_eq_none (Nat.le_trans hlen hai)
            simp [promptedAt, this]
          rw [hnil]
          simp [imageLoop, hi]
      | some slide =>
          by_cases hp : strTruthy slide.visualPrompt = true
          · have hhead : promptedAt slides i = true := by simp [promptedAt, hi, hp]
            cases hgen : generateSlideImage (env.imgOutcome i) with
            | ok img =>
                simp only [imageLoop, hi, hp, if_true, hgen]
                rw [List.filter_cons_of_pos hhead]
                have hcongr : (List.range' (i + 1) n).filter
                    (promptedAt (slides.set i { slide with imageUrl := some img })) =
                    (List.range' (i + 1) n).filter (promptedAt slides) := by
                  apply List.filter_congr
                  intro x hx
                  have hxi : i ≠ x := by
                    rcases List.mem_range'.mp hx with ⟨k, -, hk⟩; omega
                  simp [promptedAt, List.getElem?_set_ne hxi]
                rw [← hcongr, List.map_cons, ← ih (i + 1)
                  (slides.set i { slide with imageUrl := some img })
                  ((env.editAt i store).map fun p =>
                    { p with slides := slides.set i { slide with imageUrl := some img } })]
            | error e =>
                simp only [imageLoop, hi, hp, if_true, hgen]
                rw [List.filter_cons_of_pos hhead, List.map_cons,
                  ← ih (i + 1) slides (env.editAt i store)]
          · have hp1 : strTruthy slide.visualPrompt = false := by simpa using hp
            have hhead : promptedAt slides i = false := by simp [promptedAt, hi, hp1]
            simp only [imageLoop, hi, hp1, Bool.false_eq_true, if_false]
            rw [List.filter_cons_of_neg (by simp [hhead])]
            exact ih (i + 1) slides store

/-- The code's in-loop progress value equals natural division:
`40 + Math.floor(((i+1)/total) * 60) = 40 + (i+1)*60/total`. -/
theorem imageStatus_progress (i total : Nat) :
    (imageStatus i total).progress = 40 + (i + 1) * 60 / total := by
  have h : ((i : ℚ) + 1) / (total : ℚ) * 60 =
      (((i + 1) * 60 : ℕ) : ℚ) / (total : ℚ) := by
    push_cast; ring
  simp only [imageStatus, h, Nat.floor_div_eq_div]

/-- Erasing the generated ids from the hydrator's output recovers the pushed
proto-elements: the id stream influences nothing but the `id` fields. -/
theorem hydrate_erase (gen : Nat → String) (slide : Slide) :
    (hydrateLayoutToElements gen slide).map SlideElement.erase =
      hydrateProto slide := by
  unfold hydrateLayoutToElements
  apply List.ext_getElem?
  intro i
  simp only [List.getElem?_map, List.getElem?_mapIdx]
  cases h : (hydrateProto slide)[i]? with
  | none => rfl
  | some p => simp [SlideElement.erase]

/-- Unfolding of a `handleGenerate` run whose input passes validation and
whose Structure Generator call resolves. -/
theorem handleGenerate_ok (env : PipelineEnv) (p0 : Option Presentation)
    (st0 : GenerationStatus) (b : Bool) (notes : String) (sr : StructResponse)
    (hvalid : b = true ∨ notes ≠ "") (hok : env.structureResult = .ok sr) :
    handleGenerate env p0 st0 b notes =
      { presentation :=
          (imageLoop env sr.slides.length sr.slides.length 0 sr.slides
            (some (initialPresentation sr))).2.1
        status := completeStatus
        trace := [analyzingStatus, planningStatus,
                  imagesStartStatus sr.slides.length] ++
                 (imageLoop env sr.slides.length sr.slides.length 0 sr.slides
                   (some (initialPresentation sr))).2.2 ++
                 [completeStatus] } := by
  have hcond : ¬(b = false ∧ notes = "") := by
    rintro ⟨h1, h2⟩
    rcases hvalid with h | h
    · rw [h1] at h; exact Bool.noConfusion h
    · exact h h2
  simp only [handleGenerate, hok]
  rw [if_neg hcond]

/-! ## Claim theorems -/

/-- C4: if the Structure Generator call fails, the pipeline transitions to
`ERROR` and the Store's Presentation value after the cycle is identical to
its value before the cycle (`null` stays `null` on first run). -/
theorem C4_structure_failure_preserves_store (env : PipelineEnv)
    (p0 : Option Presentation) (st0 : GenerationStatus) (b : Bool)
    (notes m : String) (hvalid : b = true ∨ notes ≠ "")
    (herr : env.structureResult = .error m) :
    (handleGenerate env p0 st0 b notes).presentation = p0 ∧
    (handleGenerate env p0 st0 b notes).status.stage = .ERROR := by
  have hcond : ¬(b = false ∧ notes = "") := by
    rintro ⟨h1, h2⟩
    rcases hvalid with h | h
    · rw [h1] at h; exact Bool.noConfusion h
    · exact h h2
  simp only [handleGenerate, herr]
  rw [if_neg hcond]
  exact ⟨rfl, rfl⟩

/-- Witness for C4: a failed Structure Generator call on first run (`null`
Store) ends in `ERROR` with the Store still `null`. -/
theorem C4_witness :
    (handleGenerate envStructFail none idleStatus true "notes").presentation = none ∧
    (handleGenerate envStructFail none idleStatus true "notes").status.stage = .ERROR :=
  C4_structure_failure_preserves_store envStructFail none idleStatus true
    "notes" "boom" (Or.inl rfl) rfl

/-- C5: whatever the individual image outcomes are, the pipeline ends
`COMPLETE` with progress 100 (never `ERROR`), and — absent concurrent user
edits — every slide whose own image call resolves with a payload receives
that payload as its `imageUrl` in the final Presentation. -/
theorem C5_image_failures_nonfatal (env : PipelineEnv)
    (p0 : Option Presentation) (st0 : GenerationStatus) (b : Bool)
    (notes : String) (sr : StructResponse)
    (hvalid : b = true ∨ notes ≠ "")
    (hok : env.structureResult = .ok sr) :
    (handleGenerate env p0 st0 b notes).status = completeStatus ∧
    ((∀ i s, env.editAt i s = s) →
      ∃ pres : Presentation,
        (handleGenerate env p0 st0 b notes).presentation = some pres ∧
        pres.title = sr.title ∧
        ∀ (i : Nat) (s : Slide) (img : String), sr.slides[i]? = some s →
          strTruthy s.visualPrompt = true →
          generateSlideImage (env.imgOutcome i) = .ok img →
          pres.slides[i]? = some { s with imageUrl := some img }) := by
  rw [handleGenerate_ok env p0 st0 b notes sr hvalid hok]
  refine ⟨rfl, ?_⟩
  intro hedit
  have hstore := imageLoop_store env sr.slides.length hedit sr.slides.length 0
    sr.title (initialPresentation sr).style sr.slides
  rw [show (some (initialPresentation sr)) =
      some { title := sr.title, slides := sr.slides
             style := (initialPresentation sr).style } from rfl, hstore]
  refine ⟨_, rfl, rfl, ?_⟩
  intro i s img hi hp hgen
  have h := imageLoop_get? env sr.slides.length sr.slides.length 0 sr.slides
    (some { title := sr.title, slides := sr.slides
            style := (initialPresentation sr).style }) i s hi
  have hilt : i < sr.slides.length := by
    by_contra hc
    rw [List.getElem?_eq_none (Nat.le_of_not_lt hc)] at hi
    exact Option.noConfusion hi
  rw [if_pos ⟨Nat.zero_le i, by omega, hp⟩, hgen] at h
  exact h

/-- Witness for C5: five prompted slides, request 2 of 5 throws; the run
ends `COMPLETE` and slides 1, 3, 4, 5 carry their images while slide 2 has
none. -/
theorem C5_witness :
    (handleGenerate envFive none idleStatus true "n").status = completeStatus ∧
    ((handleGenerate envFive none idleStatus true "n").presentation.map
      fun p => p.slides.map Slide.imageUrl) =
      some [some "img0", none, some "img2", some "img3", some "img4"] :=
  ⟨(C5_image_failures_nonfatal envFive none idleStatus true "n" srFive
      (Or.inl rfl) rfl).1, by decide⟩

/-- C1 (counterexample): a deck whose single prompted slide's image request
fails; the final Presentation carries the empty-string sentinel in that
slide's `imageUrl` — not an absent value as the claim states. -/
theorem C1_counterexample :
    ((handleGenerate envImgFail none idleStatus true "n").presentation.bind
      fun p => p.slides[0]?).map Slide.imageUrl = some (some "") ∧
    ((handleGenerate envImgFail none idleStatus true "n").presentation.bind
      fun p => p.slides[0]?).map Slide.imageUrl ≠ some none := by
  constructor
  · decide
  · decide

/-- C1 (amended): when a slide's image request fails inside
`generateSlideImage`'s guarded block, the service resolves with `""` and the
loop writes the empty-string sentinel into that slide's `imageUrl`; the
`imageUrl` stays absent only when the call throws before the request
(missing API key), and in either case the loop continues — the
characterization covers every slide independently of other slides'
outcomes. -/
theorem C1_request_failure_writes_sentinel (env : PipelineEnv)
    (p0 : Option Presentation) (st0 : GenerationStatus) (b : Bool)
    (notes : String) (sr : StructResponse)
    (hvalid : b = true ∨ notes ≠ "")
    (hok : env.structureResult = .ok sr)
    (hedit : ∀ i s, env.editAt i s = s) :
    ∃ pres : Presentation,
      (handleGenerate env p0 st0 b notes).presentation = some pres ∧
      ∀ (i : Nat) (s : Slide), sr.slides[i]? = some s →
        strTruthy s.visualPrompt = true →
        ((env.imgOutcome i = .reqError →
            pres.slides[i]? = some { s with imageUrl := some "" }) ∧
         (∀ m, env.imgOutcome i = .thrown m → pres.slides[i]? = some s)) := by
  rw [handleGenerate_ok env p0 st0 b notes sr hvalid hok]
  have hstore := imageLoop_store env sr.slides.length hedit sr.slides.length 0
    sr.title (initialPresentation sr).style sr.slides
  rw [show (some (initialPresentation sr)) =
      some { title := sr.title, slides := sr.slides
             style := (initialPresentation sr).style } from rfl, hstore]
  refine ⟨_, rfl, ?_⟩
  intro i s hi hp
  have hilt : i < sr.slides.length := by
    by_contra hc
    rw [List.getElem?_eq_none (Nat.le_of_not_lt hc)] at hi
    exact Option.noConfusion hi
  have h := imageLoop_get? env sr.slides.length sr.slides.length 0 sr.slides
    (some { title := sr.title, slides := sr.slides
            style := (initialPresentation sr).style }) i s hi
  rw [if_pos ⟨Nat.zero_le i, by omega, hp⟩] at h
  constructor
  · intro hout
    rw [hout] at h
    exact h
  · intro m hout
    rw [hout] at h
    exact h

/-- Witness for C1 (amended): the one-slide deck with a failing request ends
with `imageUrl` equal to the sentinel `some ""`. -/
theorem C1_witness :
    ∃ pres : Presentation,
      (handleGenerate envImgFail none idleStatus true "n").presentation = some pres ∧
      pres.slides[0]? = some { sA with imageUrl := some "" } := by
  obtain ⟨pres, hp, hall⟩ := C1_request_failure_writes_sentinel envImgFail none
    idleStatus true "n" srOne (Or.inl rfl) rfl (fun _ _ => rfl)
  exact ⟨pres, hp, (hall 0 sA rfl rfl).1 rfl⟩

/-- C2 (code evaluated at the failing input): both image requests of a
two-slide deck resolve; while the loop awaits slide 2's image the user
renames slide 1 to "B".  The loop's republish of its loop-start snapshot
reverts the rename: the final titles are `["A", "S1"]`.  In contrast, when
no republish follows the edit (slide 2's call throws), the rename survives:
`["B", "S1"]` — the snapshot republish, not the edit mechanism, is what
loses the edit. -/
theorem C2_edit_lost_to_snapshot :
    ((handleGenerate envEdit none idleStatus true "n").presentation.map
      fun p => p.slides.map Slide.title) = some ["A", "S1"] ∧
    ((handleGenerate envEditNoWrite none idleStatus true "n").presentation.map
      fun p => p.slides.map Slide.title) = some ["B", "S1"] := by
  constructor
  · decide
  · decide

/-- C6 (counterexample): a three-slide deck with images on slides 1 and 3
only (so N = 2 slides with images).  The claim demands a reported progress
of `40 + floor(1/2 * 60) = 70` after the first image completes; the run's
reported progress values are `[10, 30, 40, 60, 100, 100]` — the code divides
by the total slide count 3, reporting 60, and 70 is never reported. -/
theorem C6_counterexample :
    ((handleGenerate envMixed none idleStatus true "n").trace.map
      fun q => q.progress) = [10, 30, 40, 60, 100, 100] ∧
    ¬ (70 ∈ (handleGenerate envMixed none idleStatus true "n").trace.map
      fun q => q.progress) := by
  have hmap : ((handleGenerate envMixed none idleStatus true "n").trace.map
      fun q => q.progress) = [10, 30, 40, 60, 100, 100] := by
    rw [handleGenerate_ok envMixed none idleStatus true "n" srMixed
      (Or.inl rfl) rfl]
    show ([analyzingStatus, planningStatus,
        imagesStartStatus srMixed.slides.length] ++
        (imageLoop envMixed srMixed.slides.length srMixed.slides.length 0
          srMixed.slides (some (initialPresentation srMixed))).2.2 ++
        [completeStatus]).map (fun q => q.progress) = [10, 30, 40, 60, 100, 100]
    rw [imageLoop_trace envMixed srMixed.slides.length srMixed.slides.length 0
      srMixed.slides (some (initialPresentation srMixed))]
    have hfilter : (List.range' 0 srMixed.slides.length).filter
        (promptedAt srMixed.slides) = [0, 2] := by decide
    rw [hfilter]
    simp only [List.map_append, List.map_cons, List.map_nil]
    rw [imageStatus_progress, imageStatus_progress]
    decide
  exact ⟨hmap, by rw [hmap]; decide⟩

/-- C6 (amended): the image phase reports one status per prompted slide, at
the moment that slide's request is issued; for the prompted slide of 0-based
index `j` the reported progress is `40 + floor((j+1)/T * 60)` =
`40 + (j+1)*60/T`, where `T` is the total number of slides (prompted or
not), and the reported `currentSlideIndex` is `j + 1`.  Slides without a
prompt are skipped without a report but still advance the denominator's
index space. -/
theorem C6_progress_formula (env : PipelineEnv) (p0 : Option Presentation)
    (st0 : GenerationStatus) (b : Bool) (notes : String) (sr : StructResponse)
    (hvalid : b = true ∨ notes ≠ "") (hok : env.structureResult = .ok sr) :
    (handleGenerate env p0 st0 b notes).trace =
      [analyzingStatus, planningStatus, imagesStartStatus sr.slides.length] ++
      ((List.range' 0 sr.slides.length).filter (promptedAt sr.slides)).map
        (fun j => imageStatus j sr.slides.length) ++ [completeStatus] ∧
    ∀ j : Nat, (imageStatus j sr.slides.length).progress =
      40 + (j + 1) * 60 / sr.slides.length := by
  constructor
  · rw [handleGenerate_ok env p0 st0 b notes sr hvalid hok]
    rw [imageLoop_trace env sr.slides.length sr.slides.length 0 sr.slides
      (some (initialPresentation sr))]
  · intro j
    exact imageStatus_progress j sr.slides.length

/-- Witness for C6 (amended): on the mixed three-slide deck the full status
trace is the three fixed statuses, one status per prompted slide (indices 0
and 2 of 3, with progress 60 and 100), and the terminal status. -/
theorem C6_witness :
    (handleGenerate envMixed none idleStatus true "n").trace =
      [analyzingStatus, planningStatus, imagesStartStatus 3,
       imageStatus 0 3, imageStatus 2 3, completeStatus] ∧
    (imageStatus 0 3).progress = 40 + 1 * 60 / 3 := by
  have h := C6_progress_formula envMixed none idleStatus true "n" srMixed
    (Or.inl rfl) rfl
  constructor
  · rw [h.1]
    have hfilter : (List.range' 0 srMixed.slides.length).filter
        (promptedAt srMixed.slides) = [0, 2] := by decide
    rw [hfilter]
    rfl
  · exact h.2 0

/-- C3 (counterexample): hydrating the same slide twice draws fresh ids from
the random stream; with the stream positioned one draw further for the
second call (the first call consumed one id), the two outputs differ in
their `id` fields, so the outputs are not equal. -/
theorem C3_counterexample :
    hydrateLayoutToElements gen0 slideTitleA ≠
      hydrateLayoutToElements gen1 slideTitleA := by
  decide

/-- C3 (amended): hydration is deterministic and pure apart from id
generation — two calls with the identical slide agree element for element on
every field except `id` (erasing ids, both equal the pushed proto-element
list); the ids themselves are fresh random draws and in general differ
between calls.  Mutation of the argument cannot occur (values are
immutable in the model, matching the source, which only reads `slide`). -/
theorem C3_hydrate_pure_modulo_ids (gen gen' : Nat → String) (slide : Slide) :
    (hydrateLayoutToElements gen slide).map SlideElement.erase =
      (hydrateLayoutToElements gen' slide).map SlideElement.erase := by
  rw [hydrate_erase, hydrate_erase]

/-- C7 (counterexample): a pointer delta of 100 screen pixels on a container
of logical width 1000 rendered at scale 1/2 (so `containerRect.width` is
500) converts to 20 percent, not the 10 percent the claim computes from
`dxPixels / W_logical * 100`. -/
theorem C7_counterexample :
    deltaXPercent 100 (renderedWidth 1000 (1/2)) (1/2) = 20 ∧
    (20 : ℚ) ≠ 100 / 1000 * 100 := by
  constructor
  · norm_num [deltaXPercent, renderedWidth]
  · norm_num

/-- C7 (amended): the conversion is scale-invariant with respect to the
container's rendered (on-screen) width: the two divisions by `scale` cancel,
so the computed percentage equals `dxPixels / rectW * 100` for every scale —
equivalently, the unscaled pointer delta over the logical width.  Against a
fixed logical width `W` the value is `dxPixels / (W * s) * 100`, which does
depend on `s`. -/
theorem C7_scale_cancels (dx rectW s : ℚ) (hs : s ≠ 0) :
    deltaXPercent dx rectW s = dx / rectW * 100 := by
  unfold deltaXPercent
  rcases eq_or_ne rectW 0 with rfl | hR
  · simp
  · field_simp

/-- Witness for C7 (amended): 100 pixels over a rendered width of 1000 at
scale 2 converts to 10 percent. -/
theorem C7_witness :
    deltaXPercent 100 1000 2 = 100 / 1000 * 100 ∧
    (100 / 1000 * 100 : ℚ) = 10 :=
  ⟨C7_scale_cancels 100 1000 2 (by norm_num), by norm_num⟩

/-- C8: a resize gesture floors the resulting width at 5 for every pointer
delta; when the element's height is numeric the resulting height is likewise
floored at 5; when the height is the `auto` sentinel the gesture changes
only the width and the height stays `auto`. -/
theorem C8_resize_floor (el : SlideElement) (dXP dYP : ℚ) :
    5 ≤ (resizeGesture el dXP dYP).width ∧
    (el.height = .auto → resizeGesture el dXP dYP =
      { el with width := max 5 (el.width + dXP) }) ∧
    (∀ h0 : ℚ, el.height = .num h0 →
      (resizeGesture el dXP dYP).height = .num (max 5 (h0 + dYP)) ∧
      5 ≤ max 5 (h0 + dYP)) := by
  refine ⟨le_max_left 5 (el.width + dXP), ?_, ?_⟩
  · intro h
    simp [resizeGesture, h]
  · intro h0 h
    exact ⟨by simp [resizeGesture, h], le_max_left 5 (h0 + dYP)⟩

/-- Witness for C8: a huge negative delta on an auto-height element leaves
height `auto` and floors the width at 5; on a height-50 element it floors
the height at 5 as well. -/
theorem C8_witness :
    resizeGesture elAuto (-1000) (-1000) = { elAuto with width := 5 } ∧
    (resizeGesture elNum (-1000) (-1000)).height = .num 5 ∧
    5 ≤ (resizeGesture elNum (-1000) (-1000)).width := by
  refine ⟨?_, ?_, (C8_resize_floor elNum (-1000) (-1000)).1⟩
  · rw [(C8_resize_floor elAuto (-1000) (-1000)).2.1 rfl]
    norm_num [elAuto]
  · rw [((C8_resize_floor elNum (-1000) (-1000)).2.2 50 rfl).1]
    norm_num

/-- C9: for a QUOTE slide, hydration reads only the first content item —
the output is unchanged when the content array is truncated to its first
element — and an empty content array is handled without error: the quoted
text element is simply omitted, leaving only the quote-mark glyph and, when
a subtitle is present, the attribution line. -/
theorem C9_quote_reads_only_first (gen : Nat → String) (slide : Slide)
    (hq : slide.layout = .QUOTE) :
    hydrateLayoutToElements gen slide =
      hydrateLayoutToElements gen { slide with content := slide.content.take 1 } ∧
    (slide.content = [] →
      hydrateProto slide =
        [{ type := .text, content := "\"", x := 10, y := 20, width := 10,
           height := .auto,
           style := some { fontSize := some 8, fontWeight := some "bold",
                           textAlign := some "left", zIndex := some 10 } }] ++
        (if strTruthy slide.subtitle then
          [{ type := .text, content := ("— " ++ slide.subtitle.getD ""),
             x := 60, y := 60, width := 30, height := .auto,
             style := some { fontSize := some (6/5), fontWeight := some "bold",
                             textAlign := some "right", zIndex := some 10 } }]
         else [])) := by
  constructor
  · unfold hydrateLayoutToElements
    have hproto : hydrateProto slide =
        hydrateProto { slide with content := slide.content.take 1 } := by
      simp only [hydrateProto, hq]
      cases slide.content <;> simp
    rw [hproto]
  · intro hc
    have hne : ("— " ++ slide.subtitle.getD "") ≠ "" := by
      intro h
      have hl := congrArg String.length h
      rw [String.length_append] at hl
      have h2 : ("— ".length) = 2 := by decide
      have h0 : ("".length) = 0 := by decide
      omega
    simp [hydrateProto, hq, hc, addText, hne]

/-- Witness for C9: a QUOTE slide with empty content and subtitle
"Jane Doe" hydrates (before id assignment) to exactly the quote-mark glyph
and the attribution line "— Jane Doe". -/
theorem C9_witness :
    hydrateLayoutToElements gen0 quoteSlide =
      hydrateLayoutToElements gen0
        { quoteSlide with content := quoteSlide.content.take 1 } ∧
    hydrateProto quoteSlide =
      [{ type := .text, content := "\"", x := 10, y := 20, width := 10,
         height := .auto,
         style := some { fontSize := some 8, fontWeight := some "bold",
                         textAlign := some "left", zIndex := some 10 } },
       { type := .text, content := "— Jane Doe", x := 60, y := 60, width := 30,
         height := .auto,
         style := some { fontSize := some (6/5), fontWeight := some "bold",
                         textAlign := some "right", zIndex := some 10 } }] := by
  have h := C9_quote_reads_only_first gen0 quoteSlide rfl
  refine ⟨h.1, ?_⟩
  rw [h.2 rfl]
  rfl

/-- C10: invoking ad-hoc image regeneration with no Presentation in the
Store, or with a slide id that occurs in no slide, is a silent no-op: the
Presentation value is unchanged and no Image Generator request is issued. -/
theorem C10_regenerate_noop (out : ImgOutcome) (slideId : String) :
    handleRegenerateImage out none slideId = (none, false) ∧
    ∀ p : Presentation, (∀ s ∈ p.slides, s.id ≠ slideId) →
      handleRegenerateImage out (some p) slideId = (some p, false) := by
  constructor
  · rfl
  · intro p hp
    have hfind : p.slides.findIdx? (fun s => s.id = slideId) = none := by
      rw [List.findIdx?_eq_none_iff]
      intro x hx
      simp [hp x hx]
    simp [handleRegenerateImage, hfind]

/-- Witness for C10: with a `null` Store, and with a one-slide Presentation
and an id matching no slide, regeneration changes nothing and issues no
request. -/
theorem C10_witness :
    handleRegenerateImage .reqError none "z" = (none, false) ∧
    handleRegenerateImage .reqError (some presOne) "nope" = (some presOne, false) :=
  ⟨(C10_regenerate_noop .reqError "z").1,
   (C10_regenerate_noop .reqError "nope").2 presOne (by decide)⟩

end Docuflow
